import Mathlib

/-!
Verification of the service orchestration and health-gated integration-test
runner implemented in `scripts/run_integration_tests.py`.

The embedding is shallow: external effects (process spawning, HTTP requests,
process termination, the interrupt flag) are supplied by an `Env` of oracles,
and every function of the runner is translated into a pure Lean function over
that environment.  Python floats are modelled as rationals (the quantities
involved — small integer counts divided by 50 or by a test total — are exact
in both representations at every comparison the code performs).
-/

namespace IntegrationTests

/-- Mirror of the `TechnologyConfig` dataclass (lines 32-41 of the source). -/
structure TechnologyConfig where
  name : String
  executable : String
  port : Nat
  health_endpoint : String
  startup_time : Nat
  dependencies : List String
  critical : Bool
deriving DecidableEq

/-- The `self.technologies` registry built in `IntegrationTestRunner.__init__`
(lines 54-145), as an association list in declaration order. -/
def technologies : List (String × TechnologyConfig) :=
  [ ("air-to-air-mesh",
      { name := "Air-to-Air Mesh Network", executable := "airmesh_demo", port := 8081,
        health_endpoint := "/health", startup_time := 10, dependencies := [],
        critical := false }),
    ("neuro-fcc",
      { name := "Neuro-FCC", executable := "neuro_fcc_demo", port := 8082,
        health_endpoint := "/health", startup_time := 5,
        dependencies := ["air-to-air-mesh"], critical := true }),
    ("self-adaptive-rotor-blades",
      { name := "Self-Adaptive Rotor Blades", executable := "adaptive_rotor_demo", port := 8083,
        health_endpoint := "/health", startup_time := 8,
        dependencies := ["neuro-fcc"], critical := false }),
    ("cold-jet",
      { name := "Cold-Jet", executable := "cold_jet_demo", port := 8084,
        health_endpoint := "/health", startup_time := 15,
        dependencies := ["self-adaptive-rotor-blades"], critical := false }),
    ("local-gravity-field-navigation",
      { name := "Local Gravity Field Navigation", executable := "lgfn_demo", port := 8085,
        health_endpoint := "/health", startup_time := 12,
        dependencies := ["cold-jet"], critical := false }),
    ("predictive-airflow-engine",
      { name := "Predictive Airflow Engine", executable := "predictive_airflow_demo", port := 8086,
        health_endpoint := "/health", startup_time := 20,
        dependencies := ["local-gravity-field-navigation"], critical := false }),
    ("self-healing-avionics-bios",
      { name := "Self-Healing Avionics BIOS", executable := "self_healing_bios_demo", port := 8087,
        health_endpoint := "/health", startup_time := 3,
        dependencies := [], critical := true }),
    ("vortex-shield",
      { name := "Vortex Shield", executable := "vortex_shield_demo", port := 8088,
        health_endpoint := "/health", startup_time := 7,
        dependencies := ["neuro-fcc"], critical := true }),
    ("air-swarm-os",
      { name := "Air Swarm OS", executable := "air_swarm_os_demo", port := 8089,
        health_endpoint := "/health", startup_time := 25,
        dependencies := ["predictive-airflow-engine", "self-healing-avionics-bios"],
        critical := false }),
    ("star-nav-core",
      { name := "StarNav Core", executable := "starnav_demo", port := 8090,
        health_endpoint := "/health", startup_time := 30,
        dependencies := ["air-swarm-os"], critical := false }) ]

/-- Registry keys in declaration order. -/
def declaredKeys : List String := technologies.map Prod.fst

/-- Lookup `self.technologies[tech_key]`; every key the runner uses is present,
so the default is never reached. -/
def getTech (k : String) : TechnologyConfig :=
  (technologies.lookup k).getD
    { name := "", executable := "", port := 0, health_endpoint := "",
      startup_time := 0, dependencies := [], critical := false }

/-- The hardcoded `start_order` list (lines 366-377). -/
def start_order : List String :=
  [ "air-to-air-mesh",
    "self-healing-avionics-bios",
    "neuro-fcc",
    "self-adaptive-rotor-blades",
    "vortex-shield",
    "cold-jet",
    "local-gravity-field-navigation",
    "predictive-airflow-engine",
    "air-swarm-os",
    "star-nav-core" ]

/-- The hardcoded `stop_order` list inside `stop_all_services` (lines 239-250). -/
def stop_order : List String :=
  [ "star-nav-core",
    "air-swarm-os",
    "predictive-airflow-engine",
    "local-gravity-field-navigation",
    "cold-jet",
    "self-adaptive-rotor-blades",
    "vortex-shield",
    "neuro-fcc",
    "air-to-air-mesh",
    "self-healing-avionics-bios" ]

/-- The hardcoded `communication_pairs` list (lines 448-453). -/
def communication_pairs : List (String × String) :=
  [ ("neuro-fcc", "self-adaptive-rotor-blades"),
    ("neuro-fcc", "vortex-shield"),
    ("air-swarm-os", "star-nav-core"),
    ("predictive-airflow-engine", "neuro-fcc") ]

/-- Possible observable outcomes of `start_service` (lines 165-204): the
executable may be missing, `Popen` may raise, the spawned process may exit
during the `startup_time` sleep, or it may still be alive at `poll()`. -/
inductive StartOutcome
  | execMissing
  | spawnFail
  | diedDuringStartup
  | alive
deriving DecidableEq

/-- Whether `start_service` returns `True` (process alive after the startup
wait, line 195-196). -/
def start_service_ok : StartOutcome → Bool
  | .alive => true
  | _ => false

/-- Whether `start_service` left an entry in `self.processes` (line 187 runs
exactly when `Popen` succeeded, even if the process then died during the
startup sleep — the entry is not removed on that failure path). -/
def start_service_registers : StartOutcome → Bool
  | .diedDuringStartup => true
  | .alive => true
  | _ => false

/-- Outcome of one HTTP interaction as seen by the runner: a response with a
status code and body text, or a raised request exception with its text. -/
inductive HttpOutcome
  | response (status : Nat) (body : String)
  | transportError (msg : String)
deriving DecidableEq

/-- Mirror of `check_service_health` (lines 256-272): `(healthy, message)`.
The code tests `response.status_code == 200` exactly; a non-200 status is
reported as `"HTTP {code}"`, an exception as its text. -/
def check_service_health : HttpOutcome → Bool × String
  | .response s b => if s == 200 then (true, b) else (false, "HTTP " ++ toString s)
  | .transportError m => (false, m)

/-- Mirror of `test_service_communication` (lines 274-292): `True` exactly
when the POST to the source service returns status 200; any exception yields
`False`. -/
def test_service_communication : HttpOutcome → Bool
  | .response s _ => s == 200
  | .transportError _ => false

/-- The dictionary returned by `run_performance_test` (lines 294-315),
abstracted to the one observation the orchestrator makes of it: whether the
key `"error"` is present.  A 200 response yields the payload (no error key);
any other status yields `error "HTTP {code}"`; an exception yields its text. -/
inductive PerfDict
  | ok (body : String)
  | error (msg : String)
deriving DecidableEq

/-- Mirror of `run_performance_test` (lines 294-315). -/
def run_performance_test : HttpOutcome → PerfDict
  | .response s b => if s == 200 then .ok b else .error ("HTTP " ++ toString s)
  | .transportError m => .error m

/-- Whether `"error" in perf_result` holds (line 426). -/
def perfHasError : PerfDict → Bool
  | .ok _ => false
  | .error _ => true

/-- The dictionary returned by `run_stress_test` on its normal path
(lines 342-347). -/
structure StressResult where
  total_requests : Nat
  successful_requests : Nat
  success_rate : ℚ
  passed : Bool
deriving DecidableEq

/-- Mirror of `run_stress_test` (lines 317-350) over the list of per-request
outcomes (`True` = status 200, `False` = non-200 or exception, as computed by
the inner `send_request`).  `success_rate = sum(results)/len(results)*100` and
`passed = success_rate >= 95`. -/
def run_stress_test (results : List Bool) : StressResult :=
  let rate : ℚ := (results.count true : ℚ) / (results.length : ℚ) * 100
  { total_requests := results.length,
    successful_requests := results.count true,
    success_rate := rate,
    passed := decide (rate ≥ 95) }

/-- Mirror of `stop_service` (lines 206-232) acting on the key set of
`self.processes` and the collected stop-error log: an absent key is a no-op
returning `True`; otherwise the stop attempt either succeeds (entry deleted,
line 227) or raises (entry kept, `False` returned, lines 230-232). -/
def stop_service (stopOk : String → Bool) (k : String) (ps errs : List String) :
    Bool × List String × List String :=
  if k ∈ ps then
    if stopOk k then (true, ps.filter (fun x => decide (x ≠ k)), errs)
    else (false, ps, errs ++ [k])
  else (true, ps, errs)

/-- Result of a `stop_all_services` call: the sequence of keys for which a
stop was actually issued, the surviving process-table keys, and the collected
stop errors. -/
structure StopPhase where
  attempts : List String
  processes : List String
  errors : List String
deriving DecidableEq

/-- Fold of `stop_all_services`'s loop (lines 252-254) over a stop order. -/
def stopAllAux (stopOk : String → Bool) :
    List String → List String → List String → List String → StopPhase
  | [], ps, errs, attempts => ⟨attempts, ps, errs⟩
  | k :: rest, ps, errs, attempts =>
    if k ∈ ps then
      let r := stop_service stopOk k ps errs
      stopAllAux stopOk rest r.2.1 r.2.2 (attempts ++ [k])
    else stopAllAux stopOk rest ps errs attempts

/-- Mirror of `stop_all_services` (lines 234-254): iterate the hardcoded
`stop_order`, stopping exactly the keys present in `self.processes`. -/
def stop_all_services (stopOk : String → Bool) (ps errs : List String) : StopPhase :=
  stopAllAux stopOk stop_order ps errs []

/-- The environment of external effects one orchestration run interacts with:
per-service start outcome, per-request HTTP outcomes, per-stop-attempt
success, and the sequence of values the `self.running` flag shows at its
successive reads (the flag is written only by the signal handler,
lines 151-155, which sets it to `False`). -/
structure Env where
  startResult : String → StartOutcome
  healthResult : String → HttpOutcome
  perfResult : String → HttpOutcome
  stressOutcomes : String → Fin 50 → Bool
  commResult : String → String → HttpOutcome
  stopOk : String → Bool
  runningSeq : Nat → Bool

/-- Result of the start phase: `started_services`, the keys registered in
`self.processes`, and whether the loop aborted on a critical start failure. -/
structure StartPhase where
  started : List String
  processes : List String
  aborted : Bool
deriving DecidableEq

/-- The start loop (lines 380-390): each key in order is started; a success is
appended to `started_services`; a failure of a `critical` service stops the
loop (the code then tears down and returns early); a non-critical failure is
only logged. -/
def startLoop (startRes : String → StartOutcome) :
    List String → List String → List String → StartPhase
  | [], started, ps => ⟨started, ps, false⟩
  | k :: rest, started, ps =>
    let o := startRes k
    let ps' := if start_service_registers o then ps ++ [k] else ps
    if start_service_ok o then startLoop startRes rest (started ++ [k]) ps'
    else if (getTech k).critical then ⟨started, ps', true⟩
    else startLoop startRes rest started ps'

/-- One service's entry in `results["technologies"]` (lines 402-441): the
health check outcome plus, when healthy, the performance and stress results. -/
structure TechTests where
  name : String
  health_passed : Bool
  health_message : String
  performance : Option PerfDict
  stress : Option StressResult
deriving DecidableEq

/-- The mutable `results` dictionary as updated during the probing and
communication phases, plus the count of reads of the `self.running` flag
performed so far (used to index `Env.runningSeq`). -/
structure Results where
  total_tests : Nat
  passed_tests : Nat
  failed_tests : Nat
  technologies : List (String × TechTests)
  communication_tests : Option (List (String × Bool))
  readCount : Nat
deriving DecidableEq

/-- One service's probing block (lines 401-444): a health check is always
counted; the performance and stress probes run and are counted only when the
health check passed. -/
def probeTech (env : Env) (k : String) (r : Results) : Results :=
  let hres := check_service_health (env.healthResult k)
  let healthy := hres.1
  let r1 :=
    { r with total_tests := r.total_tests + 1,
             passed_tests := if healthy then r.passed_tests + 1 else r.passed_tests,
             failed_tests := if healthy then r.failed_tests else r.failed_tests + 1 }
  let perf := run_performance_test (env.perfResult k)
  let r2 :=
    if healthy then
      { r1 with total_tests := r1.total_tests + 1,
                passed_tests := if perfHasError perf then r1.passed_tests else r1.passed_tests + 1,
                failed_tests := if perfHasError perf then r1.failed_tests + 1 else r1.failed_tests }
    else r1
  let stress := run_stress_test ((List.finRange 50).map (env.stressOutcomes k))
  let r3 :=
    if healthy then
      { r2 with total_tests := r2.total_tests + 1,
                passed_tests := if stress.passed then r2.passed_tests + 1 else r2.passed_tests,
                failed_tests := if stress.passed then r2.failed_tests else r2.failed_tests + 1 }
    else r2
  { r3 with technologies := r3.technologies ++
      [(k, { name := (getTech k).name, health_passed := healthy, health_message := hres.2,
             performance := if healthy then some perf else none,
             stress := if healthy then some stress else none })] }

/-- The per-service testing loop (lines 397-444): each iteration first reads
`self.running` and breaks when it is `False`. -/
def probeLoop (env : Env) : List String → Results → Results
  | [], r => r
  | k :: rest, r =>
    if env.runningSeq r.readCount then
      probeLoop env rest (probeTech env k { r with readCount := r.readCount + 1 })
    else { r with readCount := r.readCount + 1 }

/-- One communication pair (lines 459-473): attempted exactly when both keys
are in `started_services`; an attempt is counted and recorded under
`"{tech1}_to_{tech2}"`; a pair failing the gate leaves `results` untouched. -/
def commPair (env : Env) (started : List String) (t1 t2 : String) (r : Results) : Results :=
  if t1 ∈ started ∧ t2 ∈ started then
    let ok := test_service_communication (env.commResult t1 t2)
    { r with total_tests := r.total_tests + 1,
             communication_tests :=
               some (r.communication_tests.getD [] ++ [(t1 ++ "_to_" ++ t2, ok)]),
             passed_tests := if ok then r.passed_tests + 1 else r.passed_tests,
             failed_tests := if ok then r.failed_tests else r.failed_tests + 1 }
  else r

/-- The communication-pairs loop (lines 455-473): each iteration first reads
`self.running` and breaks when it is `False`. -/
def commLoop (env : Env) (started : List String) :
    List (String × String) → Results → Results
  | [], r => r
  | (t1, t2) :: rest, r =>
    if env.runningSeq r.readCount then
      commLoop env started rest (commPair env started t1 t2 { r with readCount := r.readCount + 1 })
    else { r with readCount := r.readCount + 1 }

/-- The value `run_integration_tests` returns, together with the run's
observable trace.  `success_rate` and `overall_passed` are `Option`s because
the early-return path of the code (line 390) yields a `results` dictionary
in which those keys were never set. -/
structure RunResult where
  total_tests : Nat
  passed_tests : Nat
  failed_tests : Nat
  technologies : List (String × TechTests)
  communication_tests : Option (List (String × Bool))
  success_rate : Option ℚ
  overall_passed : Option Bool
  started_services : List String
  aborted : Bool
  stop_attempts : List String
  final_processes : List String
  stop_errors : List String
deriving DecidableEq

/-- The `results` dictionary as initialized at lines 357-363. -/
def initialResults : Results :=
  { total_tests := 0, passed_tests := 0, failed_tests := 0, technologies := [],
    communication_tests := none, readCount := 0 }

/-- The early-return path of `run_integration_tests` (lines 387-390): a
critical start failure tears everything down and returns the `results`
dictionary as it stands — counters zero, no technologies, and no
`success_rate` / `overall_passed` keys. -/
def abortResult (env : Env) (sp : StartPhase) : RunResult :=
  let st := stop_all_services env.stopOk sp.processes []
  { total_tests := 0, passed_tests := 0, failed_tests := 0, technologies := [],
    communication_tests := none, success_rate := none, overall_passed := none,
    started_services := sp.started, aborted := true,
    stop_attempts := st.attempts, final_processes := st.processes,
    stop_errors := st.errors }

/-- The normal completion path of `run_integration_tests` (lines 392-489):
probe every started service, run the communication pairs, tear down, then
set `success_rate` (guarded against a zero total, lines 479-482) and
`overall_passed = success_rate >= 90` (line 485). -/
def normalResult (env : Env) (sp : StartPhase) : RunResult :=
  let r1 := probeLoop env sp.started initialResults
  let r2 := commLoop env sp.started communication_pairs r1
  let st := stop_all_services env.stopOk sp.processes []
  let rate : ℚ :=
    if r2.total_tests > 0 then (r2.passed_tests : ℚ) / (r2.total_tests : ℚ) * 100 else 0
  { total_tests := r2.total_tests, passed_tests := r2.passed_tests,
    failed_tests := r2.failed_tests, technologies := r2.technologies,
    communication_tests := r2.communication_tests,
    success_rate := some rate, overall_passed := some (decide (rate ≥ 90)),
    started_services := sp.started, aborted := false,
    stop_attempts := st.attempts, final_processes := st.processes,
    stop_errors := st.errors }

/-- Mirror of `run_integration_tests` (lines 352-489). -/
def run_integration_tests (env : Env) : RunResult :=
  let sp := startLoop env.startResult start_order [] []
  if sp.aborted then abortResult env sp else normalResult env sp

/-- Dependencies a registry declares for a key (absent keys have none). -/
def specDeps (reg : List (String × TechnologyConfig)) (k : String) : List String :=
  ((reg.lookup k).map TechnologyConfig.dependencies).getD []

/-- Whether all of a key's dependencies are already placed. -/
def specReadyIn (reg : List (String × TechnologyConfig)) (done : List String)
    (k : String) : Bool :=
  (specDeps reg k).all (fun d => done.contains d)

/-- Kahn-style selection loop: at each step pick the declaration-earliest
pending key whose dependencies are all placed; `none` when no key is ready
while some are pending. -/
def specKahnAux (reg : List (String × TechnologyConfig)) :
    Nat → List String → List String → Option (List String)
  | 0, pending, _ => if pending.isEmpty then some [] else none
  | n + 1, pending, done =>
    if pending.isEmpty then some []
    else
      match pending.find? (specReadyIn reg done) with
      | none => none
      | some k =>
        (specKahnAux reg n (pending.filter (fun x => x != k)) (done ++ [k])).map (k :: ·)

/-- Modelled from the spec: `resolveStartOrder` (spec section 4.1) — a
deterministic topological sort of the registry's dependency DAG with ties
broken by declaration order, failing (`none`, the spec's `ConfigError`) on a
cycle or a reference to an undeclared id.  No such function exists in the
source: the start order there is the hardcoded `start_order` list. -/
def resolveStartOrderSpec (reg : List (String × TechnologyConfig)) : Option (List String) :=
  specKahnAux reg (reg.map Prod.fst).length (reg.map Prod.fst) []

/-- Baseline environment: every start succeeds, every HTTP interaction
returns status 200, every stop succeeds, and no interrupt is received. -/
def envBase : Env where
  startResult := fun _ => .alive
  healthResult := fun _ => .response 200 "OK"
  perfResult := fun _ => .response 200 "payload"
  stressOutcomes := fun _ _ => true
  commResult := fun _ _ => .response 200 "OK"
  stopOk := fun _ => true
  runningSeq := fun _ => true

/-- Run in which the critical service `self-healing-avionics-bios` spawns but
its process exits during the startup wait, so `start_service` returns
`False`. -/
def envC1 : Env :=
  { envBase with
    startResult := fun k =>
      if k = "self-healing-avionics-bios" then .diedDuringStartup else .alive }

/-- Run in which every service starts but the critical service `neuro-fcc`
answers its health check with HTTP 500. -/
def envC2cex : Env :=
  { envBase with
    healthResult := fun k =>
      if k = "neuro-fcc" then .response 500 "error" else .response 200 "OK" }

/-- Run in which the critical service `neuro-fcc` fails to start because its
executable is missing. -/
def envC2w : Env :=
  { envBase with
    startResult := fun k => if k = "neuro-fcc" then .execMissing else .alive }

/-- Fully successful run, used to compare the issued stop sequence with the
reverse of the achieved start sequence. -/
def envC3 : Env := envBase

/-- Run in which the non-critical service `air-swarm-os` never starts (missing
executable) and the started service `neuro-fcc` is unhealthy (HTTP 500). -/
def envC6cex : Env :=
  { envBase with
    startResult := fun k => if k = "air-swarm-os" then .execMissing else .alive,
    healthResult := fun k =>
      if k = "neuro-fcc" then .response 500 "error" else .response 200 "OK" }

/-- Fully successful run, used to instantiate the communication-gate
statement. -/
def envC6w : Env := envBase

/-- Stop oracle under which the stop attempt for `neuro-fcc` raises. -/
def stopOkC7 : String → Bool := fun k => !(k == "neuro-fcc")

/-- Run in which an interrupt was received before the run began: the
`self.running` flag reads `False` at every observation. -/
def envC9cex : Env := { envBase with runningSeq := fun _ => false }

/-- Second cancelled-from-the-start run, used to instantiate the amended
cancellation statement. -/
def envC9w : Env := { envBase with runningSeq := fun _ => false }

/-- Fully successful run, used to instantiate the counter-invariant
statement. -/
def envC10 : Env := envBase

theorem stopAllAux_attempts (stopOk : String → Bool) :
    ∀ (order : List String), order.Nodup → ∀ (ps errs acc : List String),
      (stopAllAux stopOk order ps errs acc).attempts =
        acc ++ order.filter (fun k => decide (k ∈ ps)) := by
  intro order
  induction order with
  | nil => intro _ ps errs acc; simp [stopAllAux]
  | cons k rest ih =>
    intro hnd ps errs acc
    obtain ⟨hk, hrest⟩ := List.nodup_cons.mp hnd
    by_cases hmem : k ∈ ps
    · by_cases hok : stopOk k = true
      · have hstep : stopAllAux stopOk (k :: rest) ps errs acc =
            stopAllAux stopOk rest (ps.filter (fun x => decide (x ≠ k))) errs (acc ++ [k]) := by
          simp [stopAllAux, stop_service, hmem, hok]
        rw [hstep, ih hrest]
        have hfeq : rest.filter (fun x => decide (x ∈ ps.filter (fun y => decide (y ≠ k)))) =
            rest.filter (fun x => decide (x ∈ ps)) := by
          apply List.filter_congr
          intro x hx
          have hxk : x ≠ k := fun h => hk (h ▸ hx)
          simp [List.mem_filter, hxk]
        rw [hfeq, List.filter_cons]
        simp [hmem, List.append_assoc]
      · have hstep : stopAllAux stopOk (k :: rest) ps errs acc =
            stopAllAux stopOk rest ps (errs ++ [k]) (acc ++ [k]) := by
          simp [stopAllAux, stop_service, hmem, hok]
        rw [hstep, ih hrest, List.filter_cons]
        simp [hmem, List.append_assoc]
    · have hstep : stopAllAux stopOk (k :: rest) ps errs acc =
          stopAllAux stopOk rest ps errs acc := by
        simp [stopAllAux, hmem]
      rw [hstep, ih hrest, List.filter_cons]
      simp [hmem]

theorem stop_all_services_attempts (stopOk : String → Bool) (ps errs : List String) :
    (stop_all_services stopOk ps errs).attempts =
      stop_order.filter (fun k => decide (k ∈ ps)) := by
  have hnd : stop_order.Nodup := by decide
  simpa using stopAllAux_attempts stopOk stop_order hnd ps errs []

theorem stopAllAux_allok (stopOk : String → Bool) (hall : ∀ k, stopOk k = true) :
    ∀ (order ps errs acc : List String),
      (stopAllAux stopOk order ps errs acc).processes =
        ps.filter (fun x => decide (x ∉ order)) ∧
      (stopAllAux stopOk order ps errs acc).errors = errs := by
  intro order
  induction order with
  | nil =>
    intro ps errs acc
    constructor
    · simp [stopAllAux]
    · simp [stopAllAux]
  | cons k rest ih =>
    intro ps errs acc
    by_cases hmem : k ∈ ps
    · have hstep : stopAllAux stopOk (k :: rest) ps errs acc =
          stopAllAux stopOk rest (ps.filter (fun x => decide (x ≠ k))) errs (acc ++ [k]) := by
        simp [stopAllAux, stop_service, hmem, hall k]
      rw [hstep]
      refine ⟨?_, (ih _ errs _).2⟩
      rw [(ih _ errs _).1, List.filter_filter]
      apply List.filter_congr
      intro x _
      by_cases hxk : x = k
      · subst hxk; simp
      · simp [hxk, List.mem_cons]
    · have hstep : stopAllAux stopOk (k :: rest) ps errs acc =
          stopAllAux stopOk rest ps errs acc := by
        simp [stopAllAux, hmem]
      rw [hstep]
      refine ⟨?_, (ih ps errs acc).2⟩
      rw [(ih ps errs acc).1]
      apply List.filter_congr
      intro x hx
      have hxk : x ≠ k := fun h => hmem (h ▸ hx)
      simp [hxk, List.mem_cons]

theorem stopAllAux_nil_processes (stopOk : String → Bool) :
    ∀ (order errs acc : List String),
      stopAllAux stopOk order [] errs acc = ⟨acc, [], errs⟩ := by
  intro order
  induction order with
  | nil => intro errs acc; simp [stopAllAux]
  | cons k rest ih => intro errs acc; simp [stopAllAux, ih]

theorem startLoop_aborted_of_critical_failure (sr : String → StartOutcome) (k : String)
    (hfail : start_service_ok (sr k) = false) (hcrit : (getTech k).critical = true) :
    ∀ (l₁ l₂ acc ps : List String),
      (startLoop sr (l₁ ++ k :: l₂) acc ps).aborted = true := by
  intro l₁
  induction l₁ with
  | nil => intro l₂ acc ps; simp [startLoop, hfail, hcrit]
  | cons k' l₁' ih =>
    intro l₂ acc ps
    by_cases hok : start_service_ok (sr k') = true
    · simpa [startLoop, hok] using ih l₂ (acc ++ [k']) _
    · by_cases hc : (getTech k').critical = true
      · simp [startLoop, hok, hc]
      · simpa [startLoop, hok, hc] using ih l₂ acc _

theorem startLoop_started_of_critical_failure (sr : String → StartOutcome) (k : String)
    (hfail : start_service_ok (sr k) = false) (hcrit : (getTech k).critical = true) :
    ∀ (l₁ l₂ acc ps : List String) (j : String),
      j ∈ (startLoop sr (l₁ ++ k :: l₂) acc ps).started → j ∈ acc ∨ j ∈ l₁ := by
  intro l₁
  induction l₁ with
  | nil =>
    intro l₂ acc ps j hj
    left
    simpa [startLoop, hfail, hcrit] using hj
  | cons k' l₁' ih =>
    intro l₂ acc ps j hj
    by_cases hok : start_service_ok (sr k') = true
    · have hj' : j ∈ (startLoop sr (l₁' ++ k :: l₂) (acc ++ [k'])
          (if start_service_registers (sr k') then ps ++ [k'] else ps)).started := by
        simpa [startLoop, hok] using hj
      rcases ih l₂ (acc ++ [k']) _ j hj' with h | h
      · rcases List.mem_append.mp h with h' | h'
        · exact Or.inl h'
        · exact Or.inr (by simpa using Or.inl (List.mem_singleton.mp h'))
      · exact Or.inr (List.mem_cons_of_mem _ h)
    · by_cases hc : (getTech k').critical = true
      · left; simpa [startLoop, hok, hc] using hj
      · have hj' : j ∈ (startLoop sr (l₁' ++ k :: l₂) acc
            (if start_service_registers (sr k') then ps ++ [k'] else ps)).started := by
          simpa [startLoop, hok, hc] using hj
        rcases ih l₂ acc _ j hj' with h | h
        · exact Or.inl h
        · exact Or.inr (List.mem_cons_of_mem _ h)

theorem run_eq_abort {env : Env}
    (h : (startLoop env.startResult start_order [] []).aborted = true) :
    run_integration_tests env =
      abortResult env (startLoop env.startResult start_order [] []) := by
  simp [run_integration_tests, h]

theorem run_eq_normal {env : Env}
    (hab : (run_integration_tests env).aborted = false) :
    (startLoop env.startResult start_order [] []).aborted = false ∧
    run_integration_tests env =
      normalResult env (startLoop env.startResult start_order [] []) := by
  by_cases h : (startLoop env.startResult start_order [] []).aborted = true
  · rw [run_eq_abort h] at hab
    simp [abortResult] at hab
  · have h' : (startLoop env.startResult start_order [] []).aborted = false := by
      revert h; cases (startLoop env.startResult start_order [] []).aborted <;> simp
    exact ⟨h', by simp [run_integration_tests, h']⟩

theorem probeLoop_flagfalse {env : Env} (hfalse : ∀ n, env.runningSeq n = false)
    (l : List String) (r : Results) :
    (probeLoop env l r).total_tests = r.total_tests ∧
    (probeLoop env l r).passed_tests = r.passed_tests ∧
    (probeLoop env l r).failed_tests = r.failed_tests ∧
    (probeLoop env l r).technologies = r.technologies ∧
    (probeLoop env l r).communication_tests = r.communication_tests := by
  cases l with
  | nil => simp [probeLoop]
  | cons k rest => simp [probeLoop, hfalse]

theorem commLoop_flagfalse {env : Env} (hfalse : ∀ n, env.runningSeq n = false)
    (started : List String) (pairs : List (String × String)) (r : Results) :
    (commLoop env started pairs r).total_tests = r.total_tests ∧
    (commLoop env started pairs r).passed_tests = r.passed_tests ∧
    (commLoop env started pairs r).failed_tests = r.failed_tests ∧
    (commLoop env started pairs r).technologies = r.technologies ∧
    (commLoop env started pairs r).communication_tests = r.communication_tests := by
  cases pairs with
  | nil => simp [commLoop]
  | cons p rest => cases p with
    | mk t1 t2 => simp [commLoop, hfalse]

theorem probeTech_counter_inv (env : Env) (k : String) (r : Results)
    (h : r.total_tests = r.passed_tests + r.failed_tests) :
    (probeTech env k r).total_tests =
      (probeTech env k r).passed_tests + (probeTech env k r).failed_tests := by
  simp only [probeTech]
  split_ifs <;> simp <;> omega

theorem probeLoop_counter_inv (env : Env) :
    ∀ (l : List String) (r : Results),
      r.total_tests = r.passed_tests + r.failed_tests →
      (probeLoop env l r).total_tests =
        (probeLoop env l r).passed_tests + (probeLoop env l r).failed_tests := by
  intro l
  induction l with
  | nil => intro r h; simpa [probeLoop] using h
  | cons k rest ih =>
    intro r h
    by_cases hf : env.runningSeq r.readCount = true
    · simp only [probeLoop, hf, if_true]
      exact ih _ (probeTech_counter_inv env k _ (by simpa using h))
    · have hf' : env.runningSeq r.readCount = false := by
        revert hf; cases env.runningSeq r.readCount <;> simp
      simpa [probeLoop, hf'] using h

theorem commPair_counter_inv (env : Env) (started : List String) (t1 t2 : String)
    (r : Results) (h : r.total_tests = r.passed_tests + r.failed_tests) :
    (commPair env started t1 t2 r).total_tests =
      (commPair env started t1 t2 r).passed_tests +
        (commPair env started t1 t2 r).failed_tests := by
  simp only [commPair]
  split_ifs <;> (try simp) <;> omega

theorem commLoop_counter_inv (env : Env) (started : List String) :
    ∀ (pairs : List (String × String)) (r : Results),
      r.total_tests = r.passed_tests + r.failed_tests →
      (commLoop env started pairs r).total_tests =
        (commLoop env started pairs r).passed_tests +
          (commLoop env started pairs r).failed_tests := by
  intro pairs
  induction pairs with
  | nil => intro r h; simpa [commLoop] using h
  | cons p rest ih =>
    intro r h
    cases p with
    | mk t1 t2 =>
      by_cases hf : env.runningSeq r.readCount = true
      · simp only [commLoop, hf, if_true]
        exact ih _ (commPair_counter_inv env started t1 t2 _ (by simpa using h))
      · have hf' : env.runningSeq r.readCount = false := by
          revert hf; cases env.runningSeq r.readCount <;> simp
        simpa [commLoop, hf'] using h

/-- C1: falsified as stated — on the early-return path taken when a critical
service fails to start (here `self-healing-avionics-bios`, whose process dies
during the startup wait), `run_integration_tests` terminates but returns a
results record with no `success_rate` and no `overall_passed` entry, so the
verdict is incomplete and the exit status cannot be computed from
`overall_passed`. -/
theorem c1_abort_returns_incomplete_verdict :
    (getTech "self-healing-avionics-bios").critical = true ∧
    start_service_ok (envC1.startResult "self-healing-avionics-bios") = false ∧
    (run_integration_tests envC1).aborted = true ∧
    (run_integration_tests envC1).success_rate = none ∧
    (run_integration_tests envC1).overall_passed = none :=
  ⟨by decide, rfl, rfl, rfl, rfl⟩

/-- C3 counterexample: in a fully successful run the services are started in
`start_order` and the stops are issued in the hardcoded `stop_order`, which is
not the reverse of the achieved start sequence. -/
theorem c3_counterexample_stops_not_reverse_of_starts :
    (run_integration_tests envC3).started_services = start_order ∧
    (run_integration_tests envC3).stop_attempts = stop_order ∧
    stop_order ≠ start_order.reverse :=
  ⟨rfl, rfl, by decide⟩

/-- C3 amended: `stop_all_services` issues stops following the fixed declared
`stop_order` restricted to the services with a live process entry (so only
services actually started are stopped); that fixed order stops every service
before each of its dependencies, but it is not the exact reverse of the start
order. -/
theorem c3_amended_fixed_stop_order :
    (∀ (stopOk : String → Bool) (ps errs : List String),
      (stop_all_services stopOk ps errs).attempts =
        stop_order.filter (fun k => decide (k ∈ ps))) ∧
    stop_order ≠ start_order.reverse ∧
    (declaredKeys.all (fun k =>
      ((getTech k).dependencies).all (fun d =>
        List.indexOf k stop_order < List.indexOf d stop_order))) = true :=
  ⟨stop_all_services_attempts, by decide, by decide⟩

/-- C4: confirmed — `run_stress_test` over a batch of 50 request outcomes
(each `False` entry being a request that errored or timed out, which is
recorded rather than aborting the batch) reports
`success_rate = successes / 50 * 100`, passes exactly when that rate is at
least 95, and yields 96.0/passed for 48 successes and 80.0/failed for 40. -/
theorem c4_stress_probe_success_rate (outcomes : List Bool)
    (h50 : outcomes.length = 50) :
    (run_stress_test outcomes).total_requests = 50 ∧
    (run_stress_test outcomes).successful_requests = outcomes.count true ∧
    (run_stress_test outcomes).success_rate = (outcomes.count true : ℚ) / 50 * 100 ∧
    ((run_stress_test outcomes).passed = true ↔
      (95 : ℚ) ≤ (outcomes.count true : ℚ) / 50 * 100) ∧
    (outcomes.count true = 48 →
      (run_stress_test outcomes).success_rate = 96 ∧
      (run_stress_test outcomes).passed = true) ∧
    (outcomes.count true = 40 →
      (run_stress_test outcomes).success_rate = 80 ∧
      (run_stress_test outcomes).passed = false) := by
  refine ⟨by simp [run_stress_test, h50], rfl, by simp [run_stress_test, h50], ?_, ?_, ?_⟩
  · simp [run_stress_test, h50, ge_iff_le, decide_eq_true_iff]
  · intro hc
    constructor
    · simp only [run_stress_test, h50, hc]
      norm_num
    · simp only [run_stress_test, h50, hc]
      rw [decide_eq_true_iff]
      norm_num
  · intro hc
    constructor
    · simp only [run_stress_test, h50, hc]
      norm_num
    · simp only [run_stress_test, h50, hc]
      rw [decide_eq_false_iff_not]
      norm_num

/-- C4 witness: the theorem instantiated at the batch of 48 successes
followed by 2 failures. -/
theorem c4_stress_probe_success_rate_witness :
    (run_stress_test (List.replicate 48 true ++ List.replicate 2 false)).success_rate = 96 ∧
    (run_stress_test (List.replicate 48 true ++ List.replicate 2 false)).passed = true :=
  (c4_stress_probe_success_rate _ (by decide)).2.2.2.2.1 (by decide)

/-- C5 counterexample: the status 204 is 200-class, yet `check_service_health`
reports it unhealthy, because the code compares the status to 200 exactly. -/
theorem c5_counterexample_204_is_unhealthy :
    (200 ≤ 204 ∧ 204 < 300) ∧
    check_service_health (.response 204 "") = (false, "HTTP 204") :=
  ⟨by decide, rfl⟩

/-- C5 amended: a health check is Healthy exactly when the response status is
exactly 200 (with the body recorded); any other status — 200-class or not —
yields Unhealthy with the status code recorded, and any transport failure
yields Unhealthy with the error text recorded. -/
theorem c5_amended_healthy_iff_status_200 (s : Nat) (b m : String) :
    ((check_service_health (.response s b)).1 = (s == 200)) ∧
    check_service_health (.response 200 b) = (true, b) ∧
    (s ≠ 200 → check_service_health (.response s b) = (false, "HTTP " ++ toString s)) ∧
    check_service_health (.transportError m) = (false, m) := by
  refine ⟨?_, rfl, ?_, rfl⟩
  · by_cases h : s = 200 <;> simp [check_service_health, h]
  · intro h
    simp [check_service_health, h]

/-- C5 amended witness: the theorem instantiated at status 404. -/
theorem c5_amended_witness :
    check_service_health (.response 404 "x") = (false, "HTTP " ++ toString 404) :=
  (c5_amended_healthy_iff_status_200 404 "x" "y").2.2.1 (by decide)

/-- C7 counterexample: when the stop attempt for `neuro-fcc` raises, the
handle stays registered, and a second `stop_all_services` re-attempts the
stop and records the same error a second time — duplicate errors, handle not
stopped. -/
theorem c7_counterexample_duplicate_stop_errors :
    (stop_all_services stopOkC7 ["neuro-fcc"] []).errors = ["neuro-fcc"] ∧
    (stop_all_services stopOkC7 ["neuro-fcc"] []).processes = ["neuro-fcc"] ∧
    (stop_all_services stopOkC7
        (stop_all_services stopOkC7 ["neuro-fcc"] []).processes
        (stop_all_services stopOkC7 ["neuro-fcc"] []).errors).errors =
      ["neuro-fcc", "neuro-fcc"] :=
  ⟨rfl, rfl, rfl⟩

/-- C7 amended: stopping a handle with no live process entry is a no-op that
succeeds; when every stop attempt succeeds, one `stop_all_services` over
handles drawn from the declared stop order empties the process table and
records no error, and a second call issues no stop at all and leaves the
error log unchanged.  A stop attempt that raises, however, leaves the handle
registered, so a second call re-attempts it (see the counterexample). -/
theorem c7_amended_stop_idempotent :
    (∀ (stopOk : String → Bool) (k : String) (ps errs : List String),
      k ∉ ps → stop_service stopOk k ps errs = (true, ps, errs)) ∧
    (∀ (stopOk : String → Bool) (ps errs : List String),
      (∀ k, stopOk k = true) → (∀ k ∈ ps, k ∈ stop_order) →
      (stop_all_services stopOk ps errs).processes = [] ∧
      (stop_all_services stopOk ps errs).errors = errs ∧
      stop_all_services stopOk (stop_all_services stopOk ps errs).processes
          (stop_all_services stopOk ps errs).errors = ⟨[], [], errs⟩) := by
  constructor
  · intro stopOk k ps errs hk
    simp [stop_service, hk]
  · intro stopOk ps errs hall hsub
    have h := stopAllAux_allok stopOk hall stop_order ps errs []
    have hps : (stop_all_services stopOk ps errs).processes = [] := by
      rw [stop_all_services, h.1]
      rw [List.filter_eq_nil_iff]
      intro a ha
      simp [hsub a ha]
    have herr : (stop_all_services stopOk ps errs).errors = errs := by
      rw [stop_all_services, h.2]
    refine ⟨hps, herr, ?_⟩
    rw [hps, herr, stop_all_services, stopAllAux_nil_processes]

/-- C7 amended witness: the theorem instantiated at an empty process table and
at the table holding `neuro-fcc` and `cold-jet` with all stops succeeding. -/
theorem c7_amended_witness :
    stop_service (fun _ => true) "cold-jet" [] [] = (true, [], []) ∧
    (stop_all_services (fun _ => true) ["neuro-fcc", "cold-jet"] []).processes = [] :=
  ⟨c7_amended_stop_idempotent.1 (fun _ => true) "cold-jet" [] [] (by decide),
   (c7_amended_stop_idempotent.2 (fun _ => true) ["neuro-fcc", "cold-jet"] []
     (fun _ => rfl) (by decide)).1⟩

/-- C8 counterexample: the deterministic declaration-order-tie-break
topological sort of the registry (the spec's `resolveStartOrder` contract)
yields an order that differs from the hardcoded `start_order` the code
actually uses — already at position 1, where the sort places `neuro-fcc`
but the code places `self-healing-avionics-bios`. -/
theorem c8_counterexample_start_order_not_spec_sort :
    resolveStartOrderSpec technologies = some
      ["air-to-air-mesh", "neuro-fcc", "self-adaptive-rotor-blades", "cold-jet",
       "local-gravity-field-navigation", "predictive-airflow-engine",
       "self-healing-avionics-bios", "vortex-shield", "air-swarm-os", "star-nav-core"] ∧
    start_order ≠
      ["air-to-air-mesh", "neuro-fcc", "self-adaptive-rotor-blades", "cold-jet",
       "local-gravity-field-navigation", "predictive-airflow-engine",
       "self-healing-avionics-bios", "vortex-shield", "air-swarm-os", "star-nav-core"] :=
  ⟨rfl, by decide⟩

/-- C8 amended: the start order is a fixed hardcoded list, not computed from
the registry: it is a permutation of the declared service ids in which every
service appears after all of its dependencies, but it is not the
declaration-order-tie-break topological sort of the dependency DAG, and the
code contains no cycle or undeclared-id detection (no `ConfigError` path
exists). -/
theorem c8_amended_hardcoded_start_order :
    start_order.Perm declaredKeys ∧
    (declaredKeys.all (fun k =>
      ((getTech k).dependencies).all (fun d =>
        List.indexOf d start_order < List.indexOf k start_order))) = true ∧
    start_order ≠ (resolveStartOrderSpec technologies).getD [] :=
  ⟨by decide, by decide, by decide⟩

/-- C2 counterexample: every service starts, the critical service `neuro-fcc`
then fails its health check (HTTP 500) and the run records that failure, yet
every service after it in start order was started — the start phase completes
before any health check runs, so a critical health-check failure never
prevents later starts. -/
theorem c2_counterexample_health_failure_does_not_abort :
    (getTech "neuro-fcc").critical = true ∧
    (((run_integration_tests envC2cex).technologies.lookup "neuro-fcc").map
      TechTests.health_passed) = some false ∧
    List.indexOf "neuro-fcc" start_order < List.indexOf "star-nav-core" start_order ∧
    (run_integration_tests envC2cex).started_services = start_order :=
  ⟨by decide, rfl, by decide, rfl⟩

/-- C2 amended: if a critical service fails to *start* (`start_service`
returns `False`), then no service after it in the start order is ever
started and the run aborts early — returning a verdict in which
`overall_passed` (and `success_rate`) were never set, rather than set to
`false`.  A critical service's health-check failure does not prevent later
services from being started, since all starts complete before any health
check (see the counterexample). -/
theorem c2_amended_critical_start_failure_aborts (env : Env)
    (l₁ l₂ : List String) (k j : String)
    (horder : start_order = l₁ ++ k :: l₂)
    (hfail : start_service_ok (env.startResult k) = false)
    (hcrit : (getTech k).critical = true)
    (hj : j ∈ l₂) :
    j ∉ (run_integration_tests env).started_services ∧
    (run_integration_tests env).aborted = true ∧
    (run_integration_tests env).success_rate = none ∧
    (run_integration_tests env).overall_passed = none := by
  have hab : (startLoop env.startResult start_order [] []).aborted = true := by
    rw [horder]
    exact startLoop_aborted_of_critical_failure env.startResult k hfail hcrit l₁ l₂ [] []
  have hrun := run_eq_abort hab
  have hnd : start_order.Nodup := by decide
  rw [horder] at hnd
  have hdisj := (List.nodup_append.mp hnd).2.2
  refine ⟨?_, by rw [hrun]; rfl, by rw [hrun]; rfl, by rw [hrun]; rfl⟩
  intro hmem
  rw [hrun] at hmem
  have hmem' : j ∈ (startLoop env.startResult start_order [] []).started := by
    simpa [abortResult] using hmem
  rw [horder] at hmem'
  rcases startLoop_started_of_critical_failure env.startResult k hfail hcrit
    l₁ l₂ [] [] j hmem' with h | h
  · simp at h
  · exact hdisj h (List.mem_cons_of_mem _ hj)

/-- C2 amended witness: the theorem instantiated at a run in which the
critical service `neuro-fcc` (third in start order) fails to start and
`star-nav-core` comes after it. -/
theorem c2_amended_witness :
    "star-nav-core" ∉ (run_integration_tests envC2w).started_services ∧
    (run_integration_tests envC2w).overall_passed = none :=
  ⟨(c2_amended_critical_start_failure_aborts envC2w
      ["air-to-air-mesh", "self-healing-avionics-bios"]
      ["self-adaptive-rotor-blades", "vortex-shield", "cold-jet",
       "local-gravity-field-navigation", "predictive-airflow-engine",
       "air-swarm-os", "star-nav-core"]
      "neuro-fcc" "star-nav-core" rfl rfl (by decide) (by decide)).1,
   (c2_amended_critical_start_failure_aborts envC2w
      ["air-to-air-mesh", "self-healing-avionics-bios"]
      ["self-adaptive-rotor-blades", "vortex-shield", "cold-jet",
       "local-gravity-field-navigation", "predictive-airflow-engine",
       "air-swarm-os", "star-nav-core"]
      "neuro-fcc" "star-nav-core" rfl rfl (by decide) (by decide)).2.2.2⟩

/-- C6 counterexample: `neuro-fcc` is started but unhealthy, yet all three
declared pairs involving it are attempted and recorded (the gate consults
only the started set); the declared pair from the unstarted `air-swarm-os`
to `star-nav-core` is not recorded at all — there is no "skipped" entry in
the verdict for it. -/
theorem c6_counterexample_gate_ignores_health :
    (check_service_health (envC6cex.healthResult "neuro-fcc")).1 = false ∧
    ("air-swarm-os", "star-nav-core") ∈ communication_pairs ∧
    (run_integration_tests envC6cex).started_services =
      ["air-to-air-mesh", "self-healing-avionics-bios", "neuro-fcc",
       "self-adaptive-rotor-blades", "vortex-shield", "cold-jet",
       "local-gravity-field-navigation", "predictive-airflow-engine", "star-nav-core"] ∧
    ((run_integration_tests envC6cex).communication_tests.getD []).map Prod.fst =
      ["neuro-fcc_to_self-adaptive-rotor-blades", "neuro-fcc_to_vortex-shield",
       "predictive-airflow-engine_to_neuro-fcc"] :=
  ⟨rfl, by decide, rfl, rfl⟩

/-- C6 amended: a communication pair is attempted exactly when both of its
endpoints are in the started set — health is never consulted — and a pair
failing that gate is silently omitted: nothing is recorded for it in the
verdict and `total_tests` does not count it; each attempted pair adds one
recorded entry and one counted check. -/
theorem c6_amended_comm_gate_started_only (env : Env) (started : List String)
    (htrue : ∀ n, env.runningSeq n = true) :
    ∀ (pairs : List (String × String)) (r : Results),
      ((commLoop env started pairs r).communication_tests.getD [] =
        r.communication_tests.getD [] ++
          (pairs.filter (fun p => decide (p.1 ∈ started ∧ p.2 ∈ started))).map
            (fun p => (p.1 ++ "_to_" ++ p.2,
              test_service_communication (env.commResult p.1 p.2)))) ∧
      ((commLoop env started pairs r).total_tests =
        r.total_tests +
          (pairs.filter (fun p => decide (p.1 ∈ started ∧ p.2 ∈ started))).length) := by
  intro pairs
  induction pairs with
  | nil => intro r; simp [commLoop]
  | cons p rest ih =>
    intro r
    cases p with
    | mk t1 t2 =>
      have h1 : commLoop env started ((t1, t2) :: rest) r =
          commLoop env started rest
            (commPair env started t1 t2 { r with readCount := r.readCount + 1 }) := by
        simp [commLoop, htrue]
      by_cases hgate : t1 ∈ started ∧ t2 ∈ started
      · constructor
        · rw [h1, (ih _).1]
          simp [commPair, hgate, List.filter_cons, List.append_assoc]
        · rw [h1, (ih _).2]
          simp [commPair, hgate, List.filter_cons]
          omega
      · constructor
        · rw [h1, (ih _).1]
          simp [commPair, hgate, List.filter_cons]
        · rw [h1, (ih _).2]
          simp [commPair, hgate, List.filter_cons]

/-- C6 amended witness: the theorem instantiated at a fully successful run
over the declared pairs. -/
theorem c6_amended_witness :
    (commLoop envC6w start_order communication_pairs initialResults).total_tests =
      initialResults.total_tests +
        (communication_pairs.filter
          (fun p => decide (p.1 ∈ start_order ∧ p.2 ∈ start_order))).length :=
  (c6_amended_comm_gate_started_only envC6w start_order (fun _ => rfl)
    communication_pairs initialResults).2

/-- C9 counterexample: with the `self.running` flag already `False` at every
observation (the interrupt arrived before the run began), all ten service
starts are still issued — the start loop never consults the flag — while no
probe runs and teardown still executes over every started process. -/
theorem c9_counterexample_starts_ignore_flag :
    (∀ n, envC9cex.runningSeq n = false) ∧
    (run_integration_tests envC9cex).started_services = start_order ∧
    (run_integration_tests envC9cex).total_tests = 0 ∧
    (run_integration_tests envC9cex).stop_attempts = stop_order :=
  ⟨fun _ => rfl, rfl, rfl, rfl⟩

/-- C9 amended: the `self.running` flag is consulted only at the head of each
per-service probing iteration and each communication-pair iteration.  The
start phase never consults it, so the achieved start sequence is independent
of the flag; once the flag reads `false`, no probe block and no communication
probe is issued, while teardown and verdict finalization still run (the stop
sequence covers every registered process and `success_rate`/`overall_passed`
are still set, to `0` and `false`). -/
theorem c9_amended_cancellation_checkpoints :
    (∀ (env : Env) (f : Nat → Bool),
      (run_integration_tests { env with runningSeq := f }).started_services =
        (run_integration_tests env).started_services) ∧
    (∀ env : Env, (∀ n, env.runningSeq n = false) →
      (run_integration_tests env).aborted = false →
      (run_integration_tests env).total_tests = 0 ∧
      (run_integration_tests env).technologies = [] ∧
      (run_integration_tests env).communication_tests = none ∧
      (run_integration_tests env).success_rate = some 0 ∧
      (run_integration_tests env).overall_passed = some false ∧
      (run_integration_tests env).stop_attempts =
        stop_order.filter (fun k =>
          decide (k ∈ (startLoop env.startResult start_order [] []).processes))) := by
  constructor
  · intro env f
    by_cases hab : (startLoop env.startResult start_order [] []).aborted = true
    · simp [run_integration_tests, hab, abortResult]
    · simp only [Bool.not_eq_true] at hab
      simp [run_integration_tests, hab, normalResult]
  · intro env hfalse hab
    obtain ⟨hX, hrun⟩ := run_eq_normal hab
    have hp := probeLoop_flagfalse hfalse
      (startLoop env.startResult start_order [] []).started initialResults
    have hc := commLoop_flagfalse hfalse
      (startLoop env.startResult start_order [] []).started communication_pairs
      (probeLoop env (startLoop env.startResult start_order [] []).started initialResults)
    have htot : (run_integration_tests env).total_tests = 0 := by
      rw [hrun]
      show (commLoop env (startLoop env.startResult start_order [] []).started
        communication_pairs (probeLoop env
          (startLoop env.startResult start_order [] []).started initialResults)).total_tests = 0
      rw [hc.1, hp.1]
      rfl
    refine ⟨htot, ?_, ?_, ?_, ?_, ?_⟩
    · rw [hrun]
      show (commLoop env (startLoop env.startResult start_order [] []).started
        communication_pairs (probeLoop env
          (startLoop env.startResult start_order [] []).started initialResults)).technologies = []
      rw [hc.2.2.2.1, hp.2.2.2.1]
      rfl
    · rw [hrun]
      show (commLoop env (startLoop env.startResult start_order [] []).started
        communication_pairs (probeLoop env
          (startLoop env.startResult start_order [] []).started
            initialResults)).communication_tests = none
      rw [hc.2.2.2.2, hp.2.2.2.2]
      rfl
    · rw [hrun]
      show some (if (commLoop env (startLoop env.startResult start_order [] []).started
          communication_pairs (probeLoop env
            (startLoop env.startResult start_order [] []).started
              initialResults)).total_tests > 0
        then _ / _ * 100 else 0) = some (0 : ℚ)
      rw [hc.1, hp.1]
      norm_num [initialResults]
    · rw [hrun]
      show some (decide ((if (commLoop env
          (startLoop env.startResult start_order [] []).started
          communication_pairs (probeLoop env
            (startLoop env.startResult start_order [] []).started
              initialResults)).total_tests > 0
        then _ / _ * 100 else (0 : ℚ)) ≥ 90)) = some false
      rw [hc.1, hp.1]
      norm_num [initialResults]
    · rw [hrun]
      show (stop_all_services env.stopOk
        (startLoop env.startResult start_order [] []).processes []).attempts = _
      exact stop_all_services_attempts env.stopOk _ []

/-- C9 amended witness: the theorem instantiated at a run cancelled before it
began, in which every start nevertheless succeeds. -/
theorem c9_amended_witness :
    (run_integration_tests envC9w).total_tests = 0 ∧
    (run_integration_tests envC9w).overall_passed = some false :=
  ⟨(c9_amended_cancellation_checkpoints.2 envC9w (fun _ => rfl) rfl).1,
   (c9_amended_cancellation_checkpoints.2 envC9w (fun _ => rfl) rfl).2.2.2.2.1⟩

/-- C10: confirmed — each probing block preserves the counter invariant
`total_tests = passed_tests + failed_tests`, and every run that completes
normally (is not aborted by a critical start failure) finalizes with that
invariant, a `success_rate` between 0 and 100, and — when no check at all was
counted — a guarded division yielding rate 0 and `overall_passed = false`. -/
theorem c10_verdict_counter_invariant (env : Env) :
    (∀ (r : Results) (k : String),
      r.total_tests = r.passed_tests + r.failed_tests →
      (probeTech env k r).total_tests =
        (probeTech env k r).passed_tests + (probeTech env k r).failed_tests) ∧
    ((run_integration_tests env).aborted = false →
      (run_integration_tests env).total_tests =
        (run_integration_tests env).passed_tests +
          (run_integration_tests env).failed_tests ∧
      ∃ q : ℚ, (run_integration_tests env).success_rate = some q ∧
        0 ≤ q ∧ q ≤ 100 ∧
        ((run_integration_tests env).total_tests = 0 →
          q = 0 ∧ (run_integration_tests env).overall_passed = some false)) := by
  constructor
  · intro r k h
    exact probeTech_counter_inv env k r h
  · intro hab
    obtain ⟨hX, hrun⟩ := run_eq_normal hab
    have hinv : (commLoop env (startLoop env.startResult start_order [] []).started
        communication_pairs (probeLoop env
          (startLoop env.startResult start_order [] []).started
            initialResults)).total_tests =
      (commLoop env (startLoop env.startResult start_order [] []).started
        communication_pairs (probeLoop env
          (startLoop env.startResult start_order [] []).started
            initialResults)).passed_tests +
      (commLoop env (startLoop env.startResult start_order [] []).started
        communication_pairs (probeLoop env
          (startLoop env.startResult start_order [] []).started
            initialResults)).failed_tests :=
      commLoop_counter_inv env _ communication_pairs _
        (probeLoop_counter_inv env _ initialResults rfl)
    refine ⟨by rw [hrun]; exact hinv, ?_⟩
    set r2 := commLoop env (startLoop env.startResult start_order [] []).started
      communication_pairs (probeLoop env
        (startLoop env.startResult start_order [] []).started initialResults) with hr2
    refine ⟨if r2.total_tests > 0
      then (r2.passed_tests : ℚ) / (r2.total_tests : ℚ) * 100 else 0, ?_, ?_, ?_, ?_⟩
    · rw [hrun]; rfl
    · split_ifs with h
      · positivity
      · exact le_refl 0
    · split_ifs with h
      · have hp : r2.passed_tests ≤ r2.total_tests := by omega
        have h1 : (r2.passed_tests : ℚ) ≤ (r2.total_tests : ℚ) := by exact_mod_cast hp
        have h2 : (0 : ℚ) < (r2.total_tests : ℚ) := by exact_mod_cast h
        calc (r2.passed_tests : ℚ) / (r2.total_tests : ℚ) * 100
            ≤ 1 * 100 := by
              apply mul_le_mul_of_nonneg_right _ (by norm_num)
              exact (div_le_one h2).mpr h1
          _ = 100 := by norm_num
      · norm_num
    · intro h0
      rw [hrun] at h0
      have h0' : r2.total_tests = 0 := h0
      constructor
      · simp [h0']
      · rw [hrun]
        show some (decide ((if r2.total_tests > 0
            then (r2.passed_tests : ℚ) / (r2.total_tests : ℚ) * 100 else 0) ≥ 90)) =
          some false
        rw [h0']
        norm_num

/-- C10 witness: the theorem instantiated at a fully successful run. -/
theorem c10_witness :
    (run_integration_tests envC10).total_tests =
      (run_integration_tests envC10).passed_tests +
        (run_integration_tests envC10).failed_tests :=
  ((c10_verdict_counter_invariant envC10).2 rfl).1

end IntegrationTests
